import Mathlib

/-!
Shallow embedding of the Django learning-lab repository
(`Charwekey/Alx_DjangoLearnLab`) for checking its specification.

Part 1 models the `advanced-api-project` Book API:
`api/models.py` (Author, Book), `api/serializers.py`
(`BookSerializer.validate_publication_year`) and `api/views.py`
(BookListView, BookCreateView, BookUpdateView, BookDeleteView).

Part 2 models the `social_media_api` sub-project:
`posts/views.py` (LikePostView, FeedView, PostViewSet permissions) and
`accounts/views.py` (LoginView).

Database rows are lists of records; each HTTP handler is a function from
request data and state to a response paired with the next state.
-/

namespace DjangoLearnLab

/-! ### Data model of `advanced_api_project/api/models.py` -/

/-- Row of the `Author` table (`models.Author`): primary key and `name`. -/
structure Author where
  id : Nat
  name : String
deriving Repr, DecidableEq

/-- Row of the `Book` table (`models.Book`): primary key, `title`,
`publication_year` (an `IntegerField`) and the `author` foreign key
(stored author id, `on_delete=CASCADE`). -/
structure Book where
  id : Nat
  title : String
  publication_year : Int
  author : Nat
deriving Repr, DecidableEq

/-- Deserialized request body for creating or updating a book
(the writable fields of `BookSerializer`: `fields = '__all__'` minus the
read-only pk). -/
structure BookInput where
  title : String
  publication_year : Int
  author : Nat
deriving Repr, DecidableEq

/-- Database state of the Book API: the `Author` and `Book` tables plus
the auto-increment counters for their primary keys. -/
structure BookState where
  authors : List Author
  books : List Book
  nextAuthorId : Nat
  nextBookId : Nat
deriving Repr, DecidableEq

/-- HTTP response of the Book API views: status code plus the
field-keyed validation error messages DRF returns on 400
(`{field: [message]}` flattened to `(field, message)` pairs). -/
structure ApiResponse where
  status : Nat
  errors : List (String × String) := []
deriving Repr, DecidableEq

/-- Check whether an author row with the given primary key exists
(what `PrimaryKeyRelatedField` / django-filter choice validation query). -/
def authorExists (s : BookState) (aid : Nat) : Bool :=
  s.authors.any (fun a => a.id == aid)

/-- Look up a book row by primary key, as `generics.get_object` does on
`Book.objects.all()` with `lookup_field = 'pk'`. -/
def getBook (s : BookState) (pk : Nat) : Option Book :=
  s.books.find? (fun b => b.id == pk)

/-! ### `BookSerializer` validation (`api/serializers.py`) -/

/-- Custom field validator `BookSerializer.validate_publication_year`:
rejects a year strictly greater than the server's current year with a
`ValidationError`, otherwise returns the value unchanged. -/
def validate_publication_year (current_year : Int) (value : Int) :
    Except String Int :=
  if value > current_year then
    .error (s!"Publication year cannot be in the future. " ++
      s!"Current year is {current_year}, but got {value}.")
  else
    .ok value

/-- Field-keyed errors collected by `BookSerializer.is_valid`: the
default `PrimaryKeyRelatedField` check that the `author` pk exists, and
the custom `validate_publication_year` rule, each reported under its
field name. -/
def bookSerializerErrors (current_year : Int) (s : BookState)
    (input : BookInput) : List (String × String) :=
  (if authorExists s input.author then []
   else [("author", s!"Invalid pk \"{input.author}\" - object does not exist.")]) ++
  (match validate_publication_year current_year input.publication_year with
   | .error m => [("publication_year", m)]
   | .ok _ => [])

/-! ### Book API views (`api/views.py`)

Requests carry `auth : Option Nat`: `some u` is a request authenticated
as user `u`, `none` is anonymous. `IsAuthenticated` rejects anonymous
requests before any object lookup or validation (DRF runs
`check_permissions` in `initial`, ahead of `get_object`); under DRF's
default authenticator stack the raised `NotAuthenticated` surfaces as
HTTP 401. -/

/-- Handler of `BookCreateView` (`generics.CreateAPIView` with
`permission_classes = [IsAuthenticated]`): anonymous requests are
rejected; otherwise the serializer validates and, on success, a new row
is inserted with the next auto-increment pk and 201 is returned. -/
def createBook (current_year : Int) (auth : Option Nat) (input : BookInput)
    (s : BookState) : ApiResponse × BookState :=
  match auth with
  | none => ({ status := 401 }, s)
  | some _ =>
    if bookSerializerErrors current_year s input = [] then
      ({ status := 201 },
       { s with
         books := s.books ++
           [⟨s.nextBookId, input.title, input.publication_year, input.author⟩],
         nextBookId := s.nextBookId + 1 })
    else
      ({ status := 400, errors := bookSerializerErrors current_year s input }, s)

/-- Handler of `BookUpdateView` (`generics.UpdateAPIView` with
`permission_classes = [IsAuthenticated]`, `lookup_field = 'pk'`):
anonymous requests are rejected; a missing pk yields 404; otherwise the
serializer validates and, on success, the row's writable fields are
replaced and 200 is returned. -/
def updateBook (current_year : Int) (auth : Option Nat) (pk : Nat)
    (input : BookInput) (s : BookState) : ApiResponse × BookState :=
  match auth with
  | none => ({ status := 401 }, s)
  | some _ =>
    match getBook s pk with
    | none => ({ status := 404 }, s)
    | some _ =>
      if bookSerializerErrors current_year s input = [] then
        ({ status := 200 },
         { s with
           books := s.books.map (fun b =>
             if b.id == pk then
               ⟨b.id, input.title, input.publication_year, input.author⟩
             else b) })
      else
        ({ status := 400, errors := bookSerializerErrors current_year s input }, s)

/-- Handler of `BookDeleteView` (`generics.DestroyAPIView` with
`permission_classes = [IsAuthenticated]`, `lookup_field = 'pk'`):
anonymous requests are rejected; a missing pk yields 404; otherwise the
row is deleted (`instance.delete()`) and 204 is returned. -/
def deleteBook (auth : Option Nat) (pk : Nat) (s : BookState) :
    ApiResponse × BookState :=
  match auth with
  | none => ({ status := 401 }, s)
  | some _ =>
    match getBook s pk with
    | none => ({ status := 404 }, s)
    | some _ =>
      ({ status := 204 },
       { s with books := s.books.filter (fun b => b.id != pk) })

/-! ### List endpoint: filtering and ordering (`BookListView`)

`BookListView` sets `filter_backends = [DjangoFilterBackend, SearchFilter,
OrderingFilter]`, `filterset_fields = ['author', 'publication_year']`,
`ordering_fields = ['title', 'publication_year']` and default
`ordering = ['-publication_year']`. -/

/-- Ascending lexicographic order on titles (character-wise on the
title's characters), the sort key of `?ordering=title`. -/
def titleAsc (a b : Book) : Prop := a.title.toList ≤ b.title.toList

/-- Descending lexicographic order on titles, the sort key of
`?ordering=-title`. -/
def titleDesc (a b : Book) : Prop := b.title.toList ≤ a.title.toList

/-- Ascending order on publication years, the sort key of
`?ordering=publication_year`. -/
def yearAsc (a b : Book) : Prop := a.publication_year ≤ b.publication_year

/-- Descending order on publication years, the sort key of
`?ordering=-publication_year` and of the view's default ordering. -/
def yearDesc (a b : Book) : Prop := b.publication_year ≤ a.publication_year

instance : DecidableRel titleAsc :=
  fun a b => inferInstanceAs (Decidable (a.title.toList ≤ b.title.toList))

instance : DecidableRel titleDesc :=
  fun a b => inferInstanceAs (Decidable (b.title.toList ≤ a.title.toList))

instance : DecidableRel yearAsc :=
  fun a b => inferInstanceAs (Decidable (a.publication_year ≤ b.publication_year))

instance : DecidableRel yearDesc :=
  fun a b => inferInstanceAs (Decidable (b.publication_year ≤ a.publication_year))

instance : IsTotal Book titleAsc := ⟨fun a b => le_total a.title.toList b.title.toList⟩

instance : IsTrans Book titleAsc := ⟨fun _ _ _ h h' => le_trans h h'⟩

instance : IsTotal Book titleDesc := ⟨fun a b => le_total b.title.toList a.title.toList⟩

instance : IsTrans Book titleDesc := ⟨fun _ _ _ h h' => le_trans h' h⟩

instance : IsTotal Book yearAsc :=
  ⟨fun a b => le_total a.publication_year b.publication_year⟩

instance : IsTrans Book yearAsc := ⟨fun _ _ _ h h' => le_trans h h'⟩

instance : IsTotal Book yearDesc :=
  ⟨fun a b => le_total b.publication_year a.publication_year⟩

instance : IsTrans Book yearDesc := ⟨fun _ _ _ h h' => le_trans h' h⟩

/-- OrderingFilter applied to `BookListView`: a recognised `?ordering=`
value sorts by that field (`-` prefix reverses); an absent or
unrecognised value falls back to the view's default
`ordering = ['-publication_year']`. -/
def applyOrdering (ordering : Option String) (books : List Book) :
    List Book :=
  match ordering with
  | some "title" => List.insertionSort titleAsc books
  | some "-title" => List.insertionSort titleDesc books
  | some "publication_year" => List.insertionSort yearAsc books
  | _ => List.insertionSort yearDesc books

/-- Handler of `BookListView` for the `?author=<id>` filter and
`?ordering=` parameter, per `DjangoFilterBackend` with
`filterset_fields = ['author', ...]`: the generated `ModelChoiceFilter`
choice-validates the id against the `Author` table, so a nonexistent id
is a form validation error surfaced as HTTP 400; a valid id restricts
the queryset to books with that author before ordering. The returned
list is the serialized response body (empty on 400). -/
def listBooks (authorParam : Option Nat) (ordering : Option String)
    (s : BookState) : ApiResponse × List Book :=
  match authorParam with
  | none => ({ status := 200 }, applyOrdering ordering s.books)
  | some aid =>
    if authorExists s aid then
      ({ status := 200 },
       applyOrdering ordering (s.books.filter (fun b => b.author == aid)))
    else
      ({ status := 400,
         errors := [("author",
           "Select a valid choice. That choice is not one of the available choices.")] },
       [])

/-! ### Author lifecycle and the referential-integrity invariant

`Book.author` is declared with `on_delete=models.CASCADE`: deleting an
author row also deletes every book row whose `author` field references
it. -/

/-- Insert a new author row with the next auto-increment pk. -/
def createAuthor (name : String) (s : BookState) : BookState :=
  { s with
    authors := s.authors ++ [⟨s.nextAuthorId, name⟩],
    nextAuthorId := s.nextAuthorId + 1 }

/-- Delete an author row; by `on_delete=CASCADE` on `Book.author`, every
book referencing the deleted author is deleted with it. -/
def deleteAuthor (aid : Nat) (s : BookState) : BookState :=
  { s with
    authors := s.authors.filter (fun a => a.id != aid),
    books := s.books.filter (fun b => b.author != aid) }

/-- One operation on the Book API's stored state: the three mutating
HTTP endpoints plus author creation and deletion. -/
inductive Op where
  | addAuthor (name : String)
  | removeAuthor (aid : Nat)
  | create (current_year : Int) (auth : Option Nat) (input : BookInput)
  | update (current_year : Int) (auth : Option Nat) (pk : Nat) (input : BookInput)
  | destroy (auth : Option Nat) (pk : Nat)
deriving Repr

/-- State transition of a single operation (response discarded). -/
def applyOp (op : Op) (s : BookState) : BookState :=
  match op with
  | .addAuthor n => createAuthor n s
  | .removeAuthor aid => deleteAuthor aid s
  | .create y auth input => (createBook y auth input s).2
  | .update y auth pk input => (updateBook y auth pk input s).2
  | .destroy auth pk => (deleteBook auth pk s).2

/-- State reached after a sequence of operations. -/
def applyOps (ops : List Op) (s : BookState) : BookState :=
  ops.foldl (fun st op => applyOp op st) s

/-- Referential integrity: every stored book references an existing
author row. -/
def Consistent (s : BookState) : Prop :=
  ∀ b ∈ s.books, authorExists s b.author = true

instance (s : BookState) : Decidable (Consistent s) :=
  inferInstanceAs (Decidable (∀ b ∈ s.books, authorExists s b.author = true))

/-! ### Data model of `social_media_api`

The `posts` app's models file is not under `src/`; the rows below carry
exactly the fields the in-src code (`posts/views.py`,
`notifications/serializers.py`) and the spec's data-model table use:
`Post(title, content, author, created_at)`, `Like(user, post)` unique
per pair, `Notification(recipient, actor, verb, target)`. -/

/-- Row of the `Post` table: pk, author user id, title, content, and
`created_at` as a monotone timestamp. -/
structure Post where
  id : Nat
  author : Nat
  title : String
  content : String
  created_at : Nat
deriving Repr, DecidableEq

/-- Row of the `Notification` table as created by `LikePostView.post`:
recipient and actor user ids, the verb string, and the generic `target`
modelled as the target post's pk. -/
structure Notification where
  recipient : Nat
  actor : Nat
  verb : String
  target : Nat
deriving Repr, DecidableEq

/-- Database state of the social-media API: user ids, the follow
relation as (follower, followed) pairs, and the `Post`, `Like` and
`Notification` tables (a `Like` row is its (user id, post id) pair). -/
structure SocialState where
  users : List Nat
  follows : List (Nat × Nat)
  posts : List Post
  likes : List (Nat × Nat)
  notifications : List Notification
deriving Repr, DecidableEq

/-- Response of the like/unlike endpoints: status code and the JSON
`message` value. -/
structure LikeResponse where
  status : Nat
  message : String
deriving Repr, DecidableEq

/-- Look up a post by pk, as `generics.get_object_or_404(Post, pk=pk)`. -/
def findPost (s : SocialState) (pk : Nat) : Option Post :=
  s.posts.find? (fun p => p.id == pk)

/-- Handler of `LikePostView.post` (`posts/views.py`): 404 on a missing
post; `Like.objects.get_or_create(user, post)` — when the pair is new it
is inserted, a notification to the post's author is created unless the
actor is the author, and 200 "Post liked" is returned; when the pair
already exists nothing changes and 400 "You checked this post already"
is returned. -/
def likePost (u : Nat) (pk : Nat) (s : SocialState) :
    LikeResponse × SocialState :=
  match findPost s pk with
  | none => ({ status := 404, message := "Not found." }, s)
  | some post =>
    if (u, pk) ∈ s.likes then
      ({ status := 400, message := "You checked this post already" }, s)
    else if post.author = u then
      ({ status := 200, message := "Post liked" },
       { s with likes := (u, pk) :: s.likes })
    else
      ({ status := 200, message := "Post liked" },
       { s with
         likes := (u, pk) :: s.likes,
         notifications :=
           ⟨post.author, u, "liked your post", pk⟩ :: s.notifications })

/-- Handler of `UnlikePostView.post` (`posts/views.py`): 404 on a
missing post; deletes the (user, post) like row if present (200),
otherwise 400 "You have not liked this post". -/
def unlikePost (u : Nat) (pk : Nat) (s : SocialState) :
    LikeResponse × SocialState :=
  match findPost s pk with
  | none => ({ status := 404, message := "Not found." }, s)
  | some _ =>
    if (u, pk) ∈ s.likes then
      ({ status := 200, message := "Post unliked" },
       { s with likes := s.likes.filter (fun l => l != (u, pk)) })
    else
      ({ status := 400, message := "You have not liked this post" }, s)

/-- Newest-first order on posts, the `order_by('-created_at')` key of
the feed queryset. -/
def createdDesc (a b : Post) : Prop := b.created_at ≤ a.created_at

instance : DecidableRel createdDesc :=
  fun a b => inferInstanceAs (Decidable (b.created_at ≤ a.created_at))

instance : IsTotal Post createdDesc :=
  ⟨fun a b => le_total b.created_at a.created_at⟩

instance : IsTrans Post createdDesc := ⟨fun _ _ _ h h' => le_trans h' h⟩

/-- Queryset of `FeedView.get_queryset` (`posts/views.py`):
`Post.objects.filter(author__in=user.following.all())
.order_by('-created_at')` — the posts whose author the caller follows,
newest first. `user.following.all()` is the set of users the caller
follows (the `following` field lives in the out-of-src accounts model;
its direction is the spec's "posts authored by any user the caller
follows"). -/
def feed (u : Nat) (s : SocialState) : List Post :=
  List.insertionSort createdDesc
    (s.posts.filter (fun p => decide ((u, p.author) ∈ s.follows)))

/-! ### Permissions of `PostViewSet` / `CommentViewSet`

`permission_classes = [IsAuthenticatedOrReadOnly, IsAuthorOrReadOnly]`
(`posts/views.py`). A request is permitted only when every class in the
list permits it. The requester is `some u` when authenticated as user
`u` and `none` when anonymous; the resource's `author` field is always a
real user id. -/

/-- HTTP methods DRF treats as safe (read-only). -/
def SAFE_METHODS : List String := ["GET", "HEAD", "OPTIONS"]

/-- DRF's `IsAuthenticatedOrReadOnly`: safe methods are open to anyone;
unsafe methods require an authenticated requester. -/
def is_authenticated_or_read_only (method : String) (requester : Option Nat) :
    Bool :=
  SAFE_METHODS.contains method || requester.isSome

/-- Modelled from the spec: the class `IsAuthorOrReadOnly` of
`social_media_api/posts/permissions.py` is not under `src/` (only its
use in `posts/views.py` is). Per spec §4.3 it "permits
mutation only when the requester equals the resource's `author` field,
else denies with a forbidden response regardless of authentication
state", with reads open. -/
def is_author_or_read_only (method : String) (requester : Option Nat)
    (author : Nat) : Bool :=
  SAFE_METHODS.contains method || requester == some author

/-- Object-level permission of `PostViewSet`/`CommentViewSet`: the
conjunction of the two configured permission classes. -/
def viewsetPermits (method : String) (requester : Option Nat)
    (author : Nat) : Bool :=
  is_authenticated_or_read_only method requester &&
    is_author_or_read_only method requester author

/-! ### Login tokens (`accounts/views.py`) -/

/-- Handler of `LoginView.post` token logic:
`Token.objects.get_or_create(user=user)` on the per-user token table.
`tokens` maps user ids to token keys (`Token.user` is one-to-one);
`fresh` is the key the framework would generate if a row had to be
created. Returns the key put in the response and the next table. -/
def loginToken (u : Nat) (fresh : String) (tokens : List (Nat × String)) :
    String × List (Nat × String) :=
  match tokens.find? (fun t => t.1 == u) with
  | some t => (t.2, tokens)
  | none => (fresh, (u, fresh) :: tokens)

/-! ### Concrete sample states used to instantiate the theorems -/

/-- Sample Book API state: one author (pk 1) with one book (pk 1,
published 2000). -/
def sampleBookState : BookState :=
  { authors := [⟨1, "Chinua Achebe"⟩],
    books := [⟨1, "Things Fall Apart", 2000, 1⟩],
    nextAuthorId := 2,
    nextBookId := 2 }

/-- Sample social-media state: users 1 and 2, one post (pk 1) by user 1,
no follows, no likes, no notifications. -/
def sampleSocialState : SocialState :=
  { users := [1, 2],
    follows := [],
    posts := [⟨1, 1, "hello", "first post", 0⟩],
    likes := [],
    notifications := [] }

/-! ## Helper lemmas -/

/-- When the requested year lies in the future, `publication_year` is
among the error fields the serializer reports. -/
theorem mem_bookSerializerErrors_of_future {y : Int} (s : BookState)
    {input : BookInput} (h : y < input.publication_year) :
    "publication_year" ∈ (bookSerializerErrors y s input).map Prod.fst := by
  unfold bookSerializerErrors validate_publication_year
  rw [if_pos h]
  simp

/-- When the requested year lies in the future, the serializer's error
list is nonempty. -/
theorem bookSerializerErrors_ne_nil_of_future {y : Int} (s : BookState)
    {input : BookInput} (h : y < input.publication_year) :
    bookSerializerErrors y s input ≠ [] := by
  unfold bookSerializerErrors validate_publication_year
  rw [if_pos h]
  simp

/-- Valid serializer input references an existing author row. -/
theorem authorExists_of_errors_nil {y : Int} {s : BookState}
    {input : BookInput} (h : bookSerializerErrors y s input = []) :
    authorExists s input.author = true := by
  by_contra hne
  unfold bookSerializerErrors at h
  rw [List.append_eq_nil] at h
  rw [if_neg hne] at h
  exact List.cons_ne_nil _ _ h.1

/-- Membership in an ordered listing is membership in the underlying
list: every branch of `applyOrdering` is a permutation. -/
theorem mem_applyOrdering (ordering : Option String) (l : List Book)
    (b : Book) : b ∈ applyOrdering ordering l ↔ b ∈ l := by
  unfold applyOrdering
  split
  · exact (List.perm_insertionSort titleAsc l).mem_iff
  · exact (List.perm_insertionSort titleDesc l).mem_iff
  · exact (List.perm_insertionSort yearAsc l).mem_iff
  · exact (List.perm_insertionSort yearDesc l).mem_iff

/-! ## Claim theorems -/

/-- C1: a book create or update request whose `publication_year` is
strictly greater than the server's current year is rejected with
HTTP 400, the error response names the `publication_year` field, and the
stored state is unchanged; a year at most the current year passes
`validate_publication_year` and is returned unchanged. -/
theorem publication_year_not_in_future
    (y : Int) (u pk : Nat) (input : BookInput) (s : BookState)
    (hfuture : y < input.publication_year)
    (hbook : (getBook s pk).isSome = true) :
    ((createBook y (some u) input s).1.status = 400 ∧
     "publication_year" ∈ ((createBook y (some u) input s).1.errors.map Prod.fst) ∧
     (createBook y (some u) input s).2 = s) ∧
    ((updateBook y (some u) pk input s).1.status = 400 ∧
     "publication_year" ∈ ((updateBook y (some u) pk input s).1.errors.map Prod.fst) ∧
     (updateBook y (some u) pk input s).2 = s) ∧
    (∀ v : Int, v ≤ y → validate_publication_year y v = Except.ok v) := by
  obtain ⟨b, hb⟩ := Option.isSome_iff_exists.mp hbook
  have hne : bookSerializerErrors y s input ≠ [] :=
    bookSerializerErrors_ne_nil_of_future s hfuture
  have hmem : "publication_year" ∈ (bookSerializerErrors y s input).map Prod.fst :=
    mem_bookSerializerErrors_of_future s hfuture
  refine ⟨?_, ?_, ?_⟩
  · simp only [createBook, if_neg hne]
    simpa using hmem
  · simp only [updateBook, hb, if_neg hne]
    simpa using hmem
  · intro v hv
    unfold validate_publication_year
    rw [if_neg (not_lt.mpr hv)]

/-- C1 witness: with current year 2025, creating or updating the sample
book with year 2026 is a 400 naming `publication_year`, and year 2020
validates unchanged. -/
theorem publication_year_not_in_future_witness :
    ((createBook 2025 (some 7) ⟨"B", 2026, 1⟩ sampleBookState).1.status = 400 ∧
     "publication_year" ∈ ((createBook 2025 (some 7) ⟨"B", 2026, 1⟩ sampleBookState).1.errors.map Prod.fst) ∧
     (createBook 2025 (some 7) ⟨"B", 2026, 1⟩ sampleBookState).2 = sampleBookState) ∧
    ((updateBook 2025 (some 7) 1 ⟨"B", 2026, 1⟩ sampleBookState).1.status = 400 ∧
     "publication_year" ∈ ((updateBook 2025 (some 7) 1 ⟨"B", 2026, 1⟩ sampleBookState).1.errors.map Prod.fst) ∧
     (updateBook 2025 (some 7) 1 ⟨"B", 2026, 1⟩ sampleBookState).2 = sampleBookState) ∧
    (∀ v : Int, v ≤ 2025 → validate_publication_year 2025 v = Except.ok v) :=
  publication_year_not_in_future 2025 7 1 ⟨"B", 2026, 1⟩ sampleBookState
    (by decide) (by decide)

/-- C3: an anonymous (unauthenticated) create, update or delete request
on the Book endpoints is rejected with HTTP 401 (hence 401-or-403) and
leaves the stored state unchanged. -/
theorem unauthenticated_writes_rejected
    (y : Int) (input : BookInput) (pk : Nat) (s : BookState) :
    (((createBook y none input s).1.status = 401 ∨
      (createBook y none input s).1.status = 403) ∧
     (createBook y none input s).2 = s) ∧
    (((updateBook y none pk input s).1.status = 401 ∨
      (updateBook y none pk input s).1.status = 403) ∧
     (updateBook y none pk input s).2 = s) ∧
    (((deleteBook none pk s).1.status = 401 ∨
      (deleteBook none pk s).1.status = 403) ∧
     (deleteBook none pk s).2 = s) :=
  ⟨⟨Or.inl rfl, rfl⟩, ⟨Or.inl rfl, rfl⟩, ⟨Or.inl rfl, rfl⟩⟩

/-- C4: an authenticated delete of an existing book returns 204 and
removes exactly that book's row; an immediately repeated delete of the
same id returns 404 and changes nothing. -/
theorem delete_twice_204_then_404 (u pk : Nat) (s : BookState)
    (hbook : (getBook s pk).isSome = true) :
    (deleteBook (some u) pk s).1.status = 204 ∧
    (deleteBook (some u) pk s).2.books = s.books.filter (fun b => b.id != pk) ∧
    (∀ b ∈ (deleteBook (some u) pk s).2.books, b.id ≠ pk) ∧
    (deleteBook (some u) pk ((deleteBook (some u) pk s).2)).1.status = 404 ∧
    (deleteBook (some u) pk ((deleteBook (some u) pk s).2)).2 =
      (deleteBook (some u) pk s).2 := by
  obtain ⟨b, hb⟩ := Option.isSome_iff_exists.mp hbook
  have h1 : deleteBook (some u) pk s =
      ({ status := 204 }, { s with books := s.books.filter (fun b => b.id != pk) }) := by
    simp only [deleteBook, hb]
  have hnone : getBook { s with books := s.books.filter (fun b => b.id != pk) } pk = none := by
    unfold getBook
    rw [List.find?_eq_none]
    intro x hx
    have hx2 := (List.mem_filter.mp hx).2
    simp only [bne_iff_ne, ne_eq] at hx2
    simp [hx2]
  have h2 : deleteBook (some u) pk { s with books := s.books.filter (fun b => b.id != pk) } =
      ({ status := 404 }, { s with books := s.books.filter (fun b => b.id != pk) }) := by
    simp only [deleteBook, hnone]
  refine ⟨by rw [h1], by rw [h1], ?_, ?_, ?_⟩
  · intro b' hb'
    rw [h1] at hb'
    have hx2 := (List.mem_filter.mp hb').2
    simpa using hx2
  · rw [h1]
    simp [h2]
  · rw [h1]
    simp [h2]

/-- C4 witness: deleting the sample book twice gives 204, removes the
row, then 404 with no further change. -/
theorem delete_twice_204_then_404_witness :
    (deleteBook (some 7) 1 sampleBookState).1.status = 204 ∧
    (deleteBook (some 7) 1 sampleBookState).2.books =
      sampleBookState.books.filter (fun b => b.id != 1) ∧
    (∀ b ∈ (deleteBook (some 7) 1 sampleBookState).2.books, b.id ≠ 1) ∧
    (deleteBook (some 7) 1 ((deleteBook (some 7) 1 sampleBookState).2)).1.status = 404 ∧
    (deleteBook (some 7) 1 ((deleteBook (some 7) 1 sampleBookState).2)).2 =
      (deleteBook (some 7) 1 sampleBookState).2 :=
  delete_twice_204_then_404 7 1 sampleBookState (by decide)

/-- C7: a list request without an ordering parameter returns the books
sorted by `publication_year` descending (the view's default
`ordering = ['-publication_year']`); `?ordering=title` returns them
sorted by title in ascending lexicographic order. Both are permutations
of the stored table and return 200. -/
theorem list_ordering_default_and_title (s : BookState) :
    (listBooks none none s).1.status = 200 ∧
    List.Sorted yearDesc (listBooks none none s).2 ∧
    List.Perm (listBooks none none s).2 s.books ∧
    (listBooks none (some "title") s).1.status = 200 ∧
    List.Sorted titleAsc (listBooks none (some "title") s).2 ∧
    List.Perm (listBooks none (some "title") s).2 s.books :=
  ⟨rfl,
   List.sorted_insertionSort yearDesc s.books,
   List.perm_insertionSort yearDesc s.books,
   rfl,
   List.sorted_insertionSort titleAsc s.books,
   List.perm_insertionSort titleAsc s.books⟩

/-- C8: filtering the book list by `?author=<id>` with an existing
author id returns 200 and exactly the books whose `author` foreign key
equals the id; a nonexistent author id is choice-validated and yields
400 with an empty body. -/
theorem list_filter_by_author (aid : Nat) (ordering : Option String)
    (s : BookState) :
    (authorExists s aid = true →
      (listBooks (some aid) ordering s).1.status = 200 ∧
      ∀ b : Book, b ∈ (listBooks (some aid) ordering s).2 ↔
        (b ∈ s.books ∧ b.author = aid)) ∧
    (authorExists s aid = false →
      (listBooks (some aid) ordering s).1.status = 400 ∧
      (listBooks (some aid) ordering s).2 = []) := by
  constructor
  · intro hv
    have hred : listBooks (some aid) ordering s =
        ({ status := 200 },
         applyOrdering ordering (s.books.filter (fun b => b.author == aid))) := by
      simp only [listBooks, if_pos hv]
    rw [hred]
    refine ⟨rfl, fun b => ?_⟩
    rw [mem_applyOrdering]
    simp [List.mem_filter]
  · intro hv
    have hv' : ¬ (authorExists s aid = true) := by simp [hv]
    simp [listBooks, if_neg hv']

/-- C8 witness: in the sample state, filtering by the existing author 1
returns 200 with the author's single book, and filtering by the
nonexistent author 99 returns 400. -/
theorem list_filter_by_author_witness :
    ((listBooks (some 1) none sampleBookState).1.status = 200 ∧
     (listBooks (some 99) none sampleBookState).1.status = 400) :=
  ⟨((list_filter_by_author 1 none sampleBookState).1 (by decide)).1,
   ((list_filter_by_author 99 none sampleBookState).2 (by decide)).1⟩

/-- Consistency is preserved by a single Book API operation. -/
theorem consistent_applyOp (op : Op) (s : BookState) (hc : Consistent s) :
    Consistent (applyOp op s) := by
  cases op with
  | addAuthor n =>
    intro b hb
    simp only [applyOp, createAuthor] at hb ⊢
    have h := hc b hb
    unfold authorExists at h ⊢
    simp [List.any_append, h]
  | removeAuthor aid =>
    intro b hb
    simp only [applyOp, deleteAuthor] at hb ⊢
    obtain ⟨hbs, hne⟩ := List.mem_filter.mp hb
    have h := hc b hbs
    unfold authorExists at h ⊢
    rw [List.any_eq_true] at h ⊢
    obtain ⟨a, ha, hid⟩ := h
    have hid' : a.id = b.author := by simpa using hid
    have hne' : b.author ≠ aid := by simpa using hne
    exact ⟨a, List.mem_filter.mpr ⟨ha, by simp [hid', hne']⟩, hid⟩
  | create y auth input =>
    cases auth with
    | none => exact hc
    | some u =>
      by_cases herr : bookSerializerErrors y s input = []
      · have hstate : applyOp (Op.create y (some u) input) s =
            { s with
              books := s.books ++
                [⟨s.nextBookId, input.title, input.publication_year, input.author⟩],
              nextBookId := s.nextBookId + 1 } := by
          simp only [applyOp, createBook, if_pos herr]
        intro b hb
        rw [hstate] at hb ⊢
        rw [List.mem_append] at hb
        rcases hb with hb | hb
        · exact hc b hb
        · have hbeq : b =
              ⟨s.nextBookId, input.title, input.publication_year, input.author⟩ := by
            simpa using hb
          subst hbeq
          exact authorExists_of_errors_nil herr
      · have hstate : applyOp (Op.create y (some u) input) s = s := by
          simp only [applyOp, createBook, if_neg herr]
        rw [hstate]
        exact hc
  | update y auth pk input =>
    cases auth with
    | none => exact hc
    | some u =>
      cases hget : getBook s pk with
      | none =>
        have hstate : applyOp (Op.update y (some u) pk input) s = s := by
          simp only [applyOp, updateBook, hget]
        rw [hstate]
        exact hc
      | some b0 =>
        by_cases herr : bookSerializerErrors y s input = []
        · have hstate : applyOp (Op.update y (some u) pk input) s =
              { s with
                books := s.books.map (fun b =>
                  if b.id == pk then
                    ⟨b.id, input.title, input.publication_year, input.author⟩
                  else b) } := by
            simp only [applyOp, updateBook, hget, if_pos herr]
          intro b hb
          rw [hstate] at hb ⊢
          rw [List.mem_map] at hb
          obtain ⟨a, ha, hab⟩ := hb
          by_cases hid : (a.id == pk) = true
          · rw [if_pos hid] at hab
            subst hab
            exact authorExists_of_errors_nil herr
          · rw [if_neg hid] at hab
            subst hab
            exact hc a ha
        · have hstate : applyOp (Op.update y (some u) pk input) s = s := by
            simp only [applyOp, updateBook, hget, if_neg herr]
          rw [hstate]
          exact hc
  | destroy auth pk =>
    cases auth with
    | none => exact hc
    | some u =>
      cases hget : getBook s pk with
      | none =>
        have hstate : applyOp (Op.destroy (some u) pk) s = s := by
          simp only [applyOp, deleteBook, hget]
        rw [hstate]
        exact hc
      | some b0 =>
        have hstate : applyOp (Op.destroy (some u) pk) s =
            { s with books := s.books.filter (fun b => b.id != pk) } := by
          simp only [applyOp, deleteBook, hget]
        intro b hb
        rw [hstate] at hb ⊢
        exact hc b (List.mem_filter.mp hb).1

/-- Consistency is preserved by any sequence of Book API operations. -/
theorem consistent_applyOps (ops : List Op) (s : BookState)
    (hc : Consistent s) : Consistent (applyOps ops s) := by
  induction ops generalizing s with
  | nil => exact hc
  | cons op rest ih => exact ih (applyOp op s) (consistent_applyOp op s hc)

/-- C9: deleting an author cascade-deletes exactly the books whose
`author` field references it (so no surviving book references the
deleted author), and over any sequence of operations every stored book
references an existing author row. -/
theorem author_cascade_and_referential_integrity
    (aid : Nat) (ops : List Op) (s : BookState) (hc : Consistent s) :
    ((deleteAuthor aid s).books = s.books.filter (fun b => b.author != aid) ∧
     ∀ b ∈ (deleteAuthor aid s).books, b.author ≠ aid) ∧
    Consistent (applyOps ops s) := by
  refine ⟨⟨rfl, fun b hb => ?_⟩, consistent_applyOps ops s hc⟩
  have h := (List.mem_filter.mp hb).2
  simpa using h

/-- C9 witness: in the sample state, deleting author 1 removes its book,
and a concrete operation sequence preserves referential integrity. -/
theorem author_cascade_and_referential_integrity_witness :
    (deleteAuthor 1 sampleBookState).books = [] ∧
    Consistent (applyOps
      [Op.addAuthor "new author", Op.destroy (some 7) 1] sampleBookState) := by
  have h := author_cascade_and_referential_integrity 1
    [Op.addAuthor "new author", Op.destroy (some 7) 1] sampleBookState (by decide)
  exact ⟨h.1.1.trans (by decide), h.2⟩

/-- C2 counterexample: after user 2 likes post 1 twice in the sample
state, the second response has status 400, but its message is
"You checked this post already" — the claimed "already liked" wording
does not occur in it (not even the word "liked"). -/
theorem like_twice_message_counterexample :
    (likePost 2 1 (likePost 2 1 sampleSocialState).2).1.status = 400 ∧
    (likePost 2 1 (likePost 2 1 sampleSocialState).2).1.message =
      "You checked this post already" ∧
    ¬ ("already liked".toList <:+:
        (likePost 2 1 (likePost 2 1 sampleSocialState).2).1.message.toList) ∧
    ¬ ("liked".toList <:+:
        (likePost 2 1 (likePost 2 1 sampleSocialState).2).1.message.toList) := by
  decide

/-- C2 (amended): liking an existing post the user has not yet liked
returns 200 "Post liked", inserts exactly one Like row, and creates
exactly one notification to the post's author iff the actor is not the
author; liking it again returns 400 with the message "You checked this
post already" and changes nothing (no duplicate Like row, no duplicate
notification). -/
theorem like_twice_amended (u pk : Nat) (s : SocialState) (post : Post)
    (hpost : findPost s pk = some post)
    (hnew : (u, pk) ∉ s.likes) :
    (likePost u pk s).1.status = 200 ∧
    (likePost u pk s).1.message = "Post liked" ∧
    (likePost u pk s).2.likes = (u, pk) :: s.likes ∧
    (likePost u pk s).2.posts = s.posts ∧
    (post.author ≠ u →
      (likePost u pk s).2.notifications =
        ⟨post.author, u, "liked your post", pk⟩ :: s.notifications) ∧
    (post.author = u →
      (likePost u pk s).2.notifications = s.notifications) ∧
    (likePost u pk ((likePost u pk s).2)).1.status = 400 ∧
    (likePost u pk ((likePost u pk s).2)).1.message =
      "You checked this post already" ∧
    (likePost u pk ((likePost u pk s).2)).2 = (likePost u pk s).2 := by
  by_cases hauth : post.author = u
  · have h1 : likePost u pk s =
        ({ status := 200, message := "Post liked" },
         { s with likes := (u, pk) :: s.likes }) := by
      simp only [likePost, hpost, if_neg hnew, if_pos hauth]
    have hpost' : findPost { s with likes := (u, pk) :: s.likes } pk = some post := hpost
    have hmem' : (u, pk) ∈ ((u, pk) :: s.likes) := List.mem_cons_self _ _
    have h2 : likePost u pk { s with likes := (u, pk) :: s.likes } =
        ({ status := 400, message := "You checked this post already" },
         { s with likes := (u, pk) :: s.likes }) := by
      simp only [likePost, hpost', if_pos hmem']
    rw [h1]
    refine ⟨rfl, rfl, rfl, rfl, fun hne => absurd hauth hne, fun _ => rfl, ?_, ?_, ?_⟩
    · show (likePost u pk { s with likes := (u, pk) :: s.likes }).1.status = 400
      rw [h2]
    · show (likePost u pk { s with likes := (u, pk) :: s.likes }).1.message =
        "You checked this post already"
      rw [h2]
    · show (likePost u pk { s with likes := (u, pk) :: s.likes }).2 =
        { s with likes := (u, pk) :: s.likes }
      rw [h2]
  · have h1 : likePost u pk s =
        ({ status := 200, message := "Post liked" },
         { s with
           likes := (u, pk) :: s.likes,
           notifications :=
             ⟨post.author, u, "liked your post", pk⟩ :: s.notifications }) := by
      simp only [likePost, hpost, if_neg hnew, if_neg hauth]
    have hpost' : findPost
        { s with
          likes := (u, pk) :: s.likes,
          notifications :=
            ⟨post.author, u, "liked your post", pk⟩ :: s.notifications } pk =
        some post := hpost
    have hmem' : (u, pk) ∈ ((u, pk) :: s.likes) := List.mem_cons_self _ _
    have h2 : likePost u pk
        { s with
          likes := (u, pk) :: s.likes,
          notifications :=
            ⟨post.author, u, "liked your post", pk⟩ :: s.notifications } =
        ({ status := 400, message := "You checked this post already" },
         { s with
           likes := (u, pk) :: s.likes,
           notifications :=
             ⟨post.author, u, "liked your post", pk⟩ :: s.notifications }) := by
      simp only [likePost, hpost', if_pos hmem']
    rw [h1]
    refine ⟨rfl, rfl, rfl, rfl, fun _ => rfl, fun heq => absurd heq hauth, ?_, ?_, ?_⟩
    · show (likePost u pk
        { s with
          likes := (u, pk) :: s.likes,
          notifications :=
            ⟨post.author, u, "liked your post", pk⟩ :: s.notifications }).1.status = 400
      rw [h2]
    · show (likePost u pk
        { s with
          likes := (u, pk) :: s.likes,
          notifications :=
            ⟨post.author, u, "liked your post", pk⟩ :: s.notifications }).1.message =
        "You checked this post already"
      rw [h2]
    · show (likePost u pk
        { s with
          likes := (u, pk) :: s.likes,
          notifications :=
            ⟨post.author, u, "liked your post", pk⟩ :: s.notifications }).2 =
        { s with
          likes := (u, pk) :: s.likes,
          notifications :=
            ⟨post.author, u, "liked your post", pk⟩ :: s.notifications }
      rw [h2]

/-- C2 witness: user 2 liking post 1 twice in the sample state gets 200
then 400, with exactly one notification to the author. -/
theorem like_twice_amended_witness :
    (likePost 2 1 sampleSocialState).1.status = 200 ∧
    (likePost 2 1 sampleSocialState).2.notifications =
      [⟨1, 2, "liked your post", 1⟩] ∧
    (likePost 2 1 (likePost 2 1 sampleSocialState).2).1.status = 400 := by
  have h := like_twice_amended 2 1 sampleSocialState ⟨1, 1, "hello", "first post", 0⟩
    (by decide) (by decide)
  exact ⟨h.1, h.2.2.2.2.1 (by decide), h.2.2.2.2.2.2.1⟩

/-- C5: a mutation request (PUT, PATCH or DELETE) on a Post or Comment
is permitted by the viewset's permission stack exactly when the
requester is authenticated as the resource's author — an anonymous or
non-author requester is denied — while safe (read) requests are open to
everyone. -/
theorem mutation_requires_author (method : String) (requester : Option Nat)
    (author : Nat)
    (hm : method = "PUT" ∨ method = "PATCH" ∨ method = "DELETE") :
    (viewsetPermits method requester author = true ↔ requester = some author) ∧
    (∀ req : Option Nat, viewsetPermits "GET" req author = true) := by
  constructor
  · have hPUT : "PUT" ∉ SAFE_METHODS := by decide
    have hPATCH : "PATCH" ∉ SAFE_METHODS := by decide
    have hDELETE : "DELETE" ∉ SAFE_METHODS := by decide
    rcases hm with h | h | h <;> subst h <;> cases requester <;>
      simp [viewsetPermits, is_authenticated_or_read_only,
        is_author_or_read_only, hPUT, hPATCH, hDELETE]
  · intro req
    have hGET : "GET" ∈ SAFE_METHODS := by decide
    cases req <;>
      simp [viewsetPermits, is_authenticated_or_read_only,
        is_author_or_read_only, hGET]

/-- C5 witness: user 3 may DELETE their own resource, user 4 and the
anonymous requester may not, and anonymous GET is open. -/
theorem mutation_requires_author_witness :
    viewsetPermits "DELETE" (some 3) 3 = true ∧
    viewsetPermits "GET" none 3 = true :=
  ⟨(mutation_requires_author "DELETE" (some 3) 3 (Or.inr (Or.inr rfl))).1.mpr rfl,
   (mutation_requires_author "DELETE" (some 3) 3 (Or.inr (Or.inr rfl))).2 none⟩

/-- C6: the feed of a user contains exactly the stored posts whose
author the user follows, newest first by `created_at`; a user following
nobody gets an empty feed, and the user's own posts appear only if the
user follows themself. -/
theorem feed_exactly_followed_newest_first (u : Nat) (s : SocialState) :
    List.Sorted createdDesc (feed u s) ∧
    (∀ p : Post, p ∈ feed u s ↔ (p ∈ s.posts ∧ (u, p.author) ∈ s.follows)) ∧
    ((∀ v : Nat, (u, v) ∉ s.follows) → feed u s = []) ∧
    (∀ p ∈ feed u s, p.author = u → (u, u) ∈ s.follows) := by
  have hmem : ∀ p : Post, p ∈ feed u s ↔ (p ∈ s.posts ∧ (u, p.author) ∈ s.follows) := by
    intro p
    unfold feed
    rw [(List.perm_insertionSort createdDesc _).mem_iff]
    simp [List.mem_filter]
  refine ⟨List.sorted_insertionSort createdDesc _, hmem, ?_, ?_⟩
  · intro hnone
    rw [List.eq_nil_iff_forall_not_mem]
    intro p hp
    exact hnone p.author ((hmem p).mp hp).2
  · intro p hp hpa
    have h := ((hmem p).mp hp).2
    rwa [hpa] at h

/-- C6 witness: in the sample state (no follows) user 1's feed is empty,
while in a state where user 2 follows user 1 the followed user's post is
in user 2's feed. -/
theorem feed_exactly_followed_newest_first_witness :
    feed 1 sampleSocialState = [] ∧
    (⟨1, 1, "hello", "first post", 0⟩ : Post) ∈ feed 2
      { users := [1, 2], follows := [(2, 1)],
        posts := [⟨1, 1, "hello", "first post", 0⟩],
        likes := [], notifications := [] } :=
  ⟨(feed_exactly_followed_newest_first 1 sampleSocialState).2.2.1
     (fun v => List.not_mem_nil (1, v)),
   ((feed_exactly_followed_newest_first 2
       { users := [1, 2], follows := [(2, 1)],
         posts := [⟨1, 1, "hello", "first post", 0⟩],
         likes := [], notifications := [] }).2.1
     ⟨1, 1, "hello", "first post", 0⟩).mpr ⟨by decide, by decide⟩⟩

/-- C10: with at most one token row per user, logging in returns the
existing (or freshly created) token; a repeated login — whatever key the
generator would produce — returns the same key, leaves the token table
unchanged, and the table still has at most one row per user. -/
theorem login_token_idempotent (u : Nat) (fresh fresh' : String)
    (tokens : List (Nat × String))
    (huniq : ∀ v : Nat, (tokens.filter (fun t => t.1 == v)).length ≤ 1) :
    (loginToken u fresh' ((loginToken u fresh tokens).2)).1 =
      (loginToken u fresh tokens).1 ∧
    (loginToken u fresh' ((loginToken u fresh tokens).2)).2 =
      (loginToken u fresh tokens).2 ∧
    (∀ v : Nat,
      (((loginToken u fresh tokens).2).filter (fun t => t.1 == v)).length ≤ 1) := by
  cases hfind : tokens.find? (fun t => t.1 == u) with
  | some t =>
    have h1 : loginToken u fresh tokens = (t.2, tokens) := by
      simp only [loginToken, hfind]
    have h2 : loginToken u fresh' tokens = (t.2, tokens) := by
      simp only [loginToken, hfind]
    refine ⟨?_, ?_, ?_⟩
    · rw [h1]
      show (loginToken u fresh' tokens).1 = t.2
      rw [h2]
    · rw [h1]
      show (loginToken u fresh' tokens).2 = tokens
      rw [h2]
    · intro v
      rw [h1]
      exact huniq v
  | none =>
    have h1 : loginToken u fresh tokens = (fresh, (u, fresh) :: tokens) := by
      simp only [loginToken, hfind]
    have hfind2 : ((u, fresh) :: tokens).find? (fun t => t.1 == u) = some (u, fresh) :=
      List.find?_cons_of_pos _ (by simp)
    have h2 : loginToken u fresh' ((u, fresh) :: tokens) =
        (fresh, (u, fresh) :: tokens) := by
      simp only [loginToken, hfind2]
    have hfilter_nil : tokens.filter (fun t => t.1 == u) = [] := by
      rw [List.filter_eq_nil_iff]
      intro t ht
      have h := List.find?_eq_none.mp hfind t ht
      simpa using h
    refine ⟨?_, ?_, ?_⟩
    · rw [h1]
      show (loginToken u fresh' ((u, fresh) :: tokens)).1 = fresh
      rw [h2]
    · rw [h1]
      show (loginToken u fresh' ((u, fresh) :: tokens)).2 = (u, fresh) :: tokens
      rw [h2]
    · intro v
      rw [h1]
      show (((u, fresh) :: tokens).filter (fun t => t.1 == v)).length ≤ 1
      rw [List.filter_cons]
      by_cases hv : u = v
      · subst hv
        simp [hfilter_nil]
      · have hbeq : ((u, fresh).1 == v) = false := by simpa using hv
        rw [hbeq]
        simpa using huniq v

/-- C10 witness: logging user 1 in twice on an empty token table returns
the first key both times. -/
theorem login_token_idempotent_witness :
    (loginToken 1 "keyB" ((loginToken 1 "keyA" ([] : List (Nat × String))).2)).1 =
      (loginToken 1 "keyA" ([] : List (Nat × String))).1 :=
  (login_token_idempotent 1 "keyA" "keyB" [] (fun v => by simp)).1

end DjangoLearnLab
